import Mathlib

/-!
# LED strip thing (`main/iot/things/led_strip.cc`)

A shallow embedding of the `iot::LedStrip` adapter class.  The adapter keeps
three mirrored properties (`power_`, `brightness_`, `color_`) and a pointer to
an external `CircularStrip`.  The external strip is represented by the log of
calls the adapter makes on it, so that "what was sent to the strip" is an
observable of the model.

Machine integers: `int` values are `Int`; a `uint8_t` value is kept as a `Nat`
obtained by reduction modulo `256`.  C++ integer division truncates towards
zero, which is `Int.tdiv`.  Signed overflow of `brightness_ * 255` would need
`|brightness_| > 8421504`, which no execution reaches (`brightness_` only ever
holds `50` or a clamped `uint8_t`), so the product is taken in `Int`.
-/

namespace iot

/-- Modelled from the spec: the `StripColor` type of `led/circular_strip.h` is
not part of the sources; the spec calls it an "RGB triple", and the code builds
it from three `uint8_t` values by brace initialisation `{r, g, b}`. -/
structure StripColor where
  red : Nat
  green : Nat
  blue : Nat
  deriving DecidableEq, Repr

/-- The calls that `led_strip.cc` makes on the external `CircularStrip`
object, with their arguments in source order. -/
inductive StripCall where
  | SetBrightness (default_brightness low_brightness : Nat)
  | SetAllColor (color : StripColor)
  | Blink (color : StripColor) (interval_ms : Nat)
  | Breathe (low high : StripColor) (interval_ms : Nat)
  | Scroll (low high : StripColor) (length interval_ms : Nat)
  deriving DecidableEq, Repr

/-- Modelled from the spec: the `CircularStrip` class ("strip control
library") is an external collaborator that is not part of the sources.  It is
represented by the calls received so far, most recent call first. -/
structure CircularStrip where
  calls : List StripCall
  deriving DecidableEq, Repr

/-- The member variables of `class LedStrip` (lines 13-18).  `led_strip_` is
`none` for `nullptr`.  `gpio_num_` and `LED_COUNT` are only forwarded to the
`CircularStrip` constructor and are not kept. -/
structure LedStrip where
  led_strip_ : Option CircularStrip
  power_ : Bool
  brightness_ : Int
  color_ : String
  deriving DecidableEq, Repr

/-- The `int` expression `(brightness_ * 255) / 100` of lines 40, 115, 140 and
165, before it is narrowed to `uint8_t`. -/
def scaled (brightness_ : Int) : Int :=
  Int.tdiv (brightness_ * 255) 100

/-- The local `uint8_t level = (brightness_ * 255) / 100;` (lines 40, 115, 140,
165): the `int` quotient narrowed to eight bits. -/
def level (brightness_ : Int) : Nat :=
  (scaled brightness_ % 256).toNat

/-- The local constant `StripColor black = {0, 0, 0}` (lines 25, 34). -/
def black : StripColor := ⟨0, 0, 0⟩

/-- `LedStrip::InitializeLedStrip` (lines 20-27) followed by the member
initialisers of the constructor (line 64).  `DEFAULT_BRIGHTNESS` and
`LOW_BRIGHTNESS` come from a header that is not part of the sources and are
parameters. -/
def LedStrip.new (DEFAULT_BRIGHTNESS LOW_BRIGHTNESS : Nat) : LedStrip :=
  { led_strip_ := some ⟨[StripCall.SetAllColor black,
                         StripCall.SetBrightness DEFAULT_BRIGHTNESS LOW_BRIGHTNESS]⟩
    power_ := false
    brightness_ := 50
    color_ := "white" }

/-- `LedStrip::UpdateLedStrip` (lines 29-61). -/
def UpdateLedStrip (s : LedStrip) : LedStrip :=
  match s.led_strip_ with
  | none => s
  | some strip =>
    if !s.power_ then
      { s with led_strip_ := some ⟨StripCall.SetAllColor black :: strip.calls⟩ }
    else
      let level := level s.brightness_
      let color : StripColor := ⟨0, 0, 0⟩
      let color : StripColor :=
        if s.color_ = "white" then ⟨level, level, level⟩
        else if s.color_ = "red" then ⟨level, 0, 0⟩
        else if s.color_ = "green" then ⟨0, level, 0⟩
        else if s.color_ = "blue" then ⟨0, 0, level⟩
        else if s.color_ = "yellow" then ⟨level, level, 0⟩
        else if s.color_ = "purple" then ⟨level, 0, level⟩
        else if s.color_ = "cyan" then ⟨0, level, level⟩
        else color
      { s with led_strip_ := some ⟨StripCall.SetAllColor color :: strip.calls⟩ }

/-- Method `TurnOn` (lines 81-84). -/
def TurnOn (s : LedStrip) : LedStrip :=
  UpdateLedStrip { s with power_ := true }

/-- Method `TurnOff` (lines 86-89). -/
def TurnOff (s : LedStrip) : LedStrip :=
  UpdateLedStrip { s with power_ := false }

/-- Method `SetBrightness` (lines 92-100).  `number` is the integer value of
the `level` parameter; `static_cast<uint8_t>` reduces it modulo `256`, and only
then it is compared with `100`. -/
def SetBrightness (s : LedStrip) (number : Int) : LedStrip :=
  let level : Int := number % 256
  let level : Int := if level > 100 then 100 else level
  UpdateLedStrip { s with brightness_ := level }

/-- Method `SetColor` (lines 102-109). -/
def SetColor (s : LedStrip) (color : String) : LedStrip :=
  UpdateLedStrip { s with color_ := color }

/-- Method `StartBlink` (lines 111-133). -/
def StartBlink (s : LedStrip) : LedStrip :=
  match s.led_strip_ with
  | none => s
  | some strip =>
    let level := level s.brightness_
    let color : StripColor := ⟨level, level, level⟩
    let color : StripColor :=
      if s.color_ = "red" then ⟨level, 0, 0⟩
      else if s.color_ = "green" then ⟨0, level, 0⟩
      else if s.color_ = "blue" then ⟨0, 0, level⟩
      else if s.color_ = "yellow" then ⟨level, level, 0⟩
      else if s.color_ = "purple" then ⟨level, 0, level⟩
      else if s.color_ = "cyan" then ⟨0, level, level⟩
      else color
    { s with power_ := true
             led_strip_ := some ⟨StripCall.Blink color 1000 :: strip.calls⟩ }

/-- Method `StartBreathing` (lines 135-158). -/
def StartBreathing (s : LedStrip) : LedStrip :=
  match s.led_strip_ with
  | none => s
  | some strip =>
    let low : StripColor := ⟨0, 0, 0⟩
    let level := level s.brightness_
    let high : StripColor := ⟨level, level, level⟩
    let high : StripColor :=
      if s.color_ = "red" then ⟨level, 0, 0⟩
      else if s.color_ = "green" then ⟨0, level, 0⟩
      else if s.color_ = "blue" then ⟨0, 0, level⟩
      else if s.color_ = "yellow" then ⟨level, level, 0⟩
      else if s.color_ = "purple" then ⟨level, 0, level⟩
      else if s.color_ = "cyan" then ⟨0, level, level⟩
      else high
    { s with power_ := true
             led_strip_ := some ⟨StripCall.Breathe low high 50 :: strip.calls⟩ }

/-- Method `StartScrolling` (lines 160-183). -/
def StartScrolling (s : LedStrip) : LedStrip :=
  match s.led_strip_ with
  | none => s
  | some strip =>
    let low : StripColor := ⟨0, 0, 0⟩
    let level := level s.brightness_
    let high : StripColor := ⟨level, level, level⟩
    let high : StripColor :=
      if s.color_ = "red" then ⟨level, 0, 0⟩
      else if s.color_ = "green" then ⟨0, level, 0⟩
      else if s.color_ = "blue" then ⟨0, 0, level⟩
      else if s.color_ = "yellow" then ⟨level, level, 0⟩
      else if s.color_ = "purple" then ⟨level, 0, level⟩
      else if s.color_ = "cyan" then ⟨0, level, level⟩
      else high
    { s with power_ := true
             led_strip_ := some ⟨StripCall.Scroll low high 3 100 :: strip.calls⟩ }

/-- A remote invocation of one of the seven registered methods, with its
parameter list. -/
inductive Invocation where
  | TurnOn
  | TurnOff
  | SetBrightness (level : Int)
  | SetColor (color : String)
  | StartBlink
  | StartBreathing
  | StartScrolling
  deriving DecidableEq, Repr

/-- Dispatch of an invocation to the registered callback. -/
def invoke (s : LedStrip) : Invocation → LedStrip
  | .TurnOn => TurnOn s
  | .TurnOff => TurnOff s
  | .SetBrightness n => SetBrightness s n
  | .SetColor c => SetColor s c
  | .StartBlink => StartBlink s
  | .StartBreathing => StartBreathing s
  | .StartScrolling => StartScrolling s

/-- A finite sequence of invocations, executed in order. -/
def run (s : LedStrip) (calls : List Invocation) : LedStrip :=
  calls.foldl invoke s

/-- The invocations that only mutate a mirrored property: `TurnOn`, `TurnOff`,
`SetBrightness` and `SetColor`. -/
def Invocation.isPropertyCall : Invocation → Bool
  | .TurnOn => true
  | .TurnOff => true
  | .SetBrightness _ => true
  | .SetColor _ => true
  | _ => false

/-- The colour names listed in the description of the `color` parameter of
`SetColor` (line 103). -/
def documentedColors : List String :=
  ["white", "red", "green", "blue", "yellow", "purple", "cyan"]

/-- The colour carried by the most recent `SetAllColor` call in a call log
(most recent call first). -/
def lastColor : List StripCall → Option StripColor
  | [] => none
  | StripCall.SetAllColor c :: _ => some c
  | _ :: rest => lastColor rest

/-- The level `L = floor(b*255/100)` in the words of the specification:
mathematical floor division, without any narrowing. -/
def floorLevel (b : Int) : Nat :=
  (b * 255 / 100).toNat

/-- The documented colour table in the words of the specification: the RGB
triple of a colour name at level `L`; a name outside the table gives black. -/
def tableColour (name : String) (L : Nat) : StripColor :=
  match name with
  | "white" => ⟨L, L, L⟩
  | "red" => ⟨L, 0, 0⟩
  | "green" => ⟨0, L, 0⟩
  | "blue" => ⟨0, 0, L⟩
  | "yellow" => ⟨L, L, 0⟩
  | "purple" => ⟨L, 0, L⟩
  | "cyan" => ⟨0, L, L⟩
  | _ => ⟨0, 0, 0⟩

/-- The function `render` in the words of the specification: black when power
is off, otherwise the table colour at level `brightness*255/100`. -/
def render (power : Bool) (brightness : Int) (color : String) : StripColor :=
  if power = false then ⟨0, 0, 0⟩ else tableColour color (floorLevel brightness)

/-- A state reached from the constructor by `TurnOn`: power on, brightness
`50`, colour `"white"`. -/
def litState : LedStrip := run (LedStrip.new 32 4) [Invocation.TurnOn]

/-- The call log of `litState`. -/
def litStrip : CircularStrip :=
  ⟨[StripCall.SetAllColor ⟨127, 127, 127⟩, StripCall.SetAllColor ⟨0, 0, 0⟩,
    StripCall.SetBrightness 32 4]⟩

/-- A state reached from the constructor by `SetColor "orange"`: power off,
brightness `50`, a colour outside the documented table. -/
def orangeState : LedStrip := run (LedStrip.new 32 4) [Invocation.SetColor "orange"]

/-- The call log of `orangeState`. -/
def orangeStrip : CircularStrip :=
  ⟨[StripCall.SetAllColor ⟨0, 0, 0⟩, StripCall.SetAllColor ⟨0, 0, 0⟩,
    StripCall.SetBrightness 32 4]⟩

/-! ## Arithmetic of the brightness scaling -/

theorem scaled_eq_ediv (b : Int) (h0 : 0 ≤ b) : scaled b = b * 255 / 100 := by
  unfold scaled
  exact Int.tdiv_eq_ediv (by omega) (by decide)

theorem scaled_bounds (b : Int) (h0 : 0 ≤ b) (h1 : b ≤ 100) :
    0 ≤ scaled b ∧ scaled b ≤ 255 := by
  rw [scaled_eq_ediv b h0]
  omega

theorem level_eq_floorLevel (b : Int) (h0 : 0 ≤ b) (h1 : b ≤ 100) :
    level b = floorLevel b := by
  have hb := scaled_bounds b h0 h1
  have he := scaled_eq_ediv b h0
  unfold level floorLevel
  rw [← he]
  congr 1
  omega

/-- C8: for a brightness `b` in `0..100` the `int` quotient `(b*255)/100` lies
in `0..255`, so narrowing it to `uint8_t` loses nothing; the level is `0` at
brightness `0`, `255` at brightness `100`, and it does not decrease when the
brightness grows from `a` to `b`. -/
theorem level_fits_byte (a b : Int) (ha : 0 ≤ a) (hab : a ≤ b) (hb : b ≤ 100) :
    0 ≤ scaled b ∧ scaled b ≤ 255 ∧ scaled b % 256 = scaled b
      ∧ (level b : Int) = scaled b
      ∧ level 0 = 0 ∧ level 100 = 255
      ∧ scaled a ≤ scaled b ∧ level a ≤ level b := by
  have hsb := scaled_bounds b (by omega) hb
  have hsa := scaled_bounds a ha (by omega)
  have hmono : scaled a ≤ scaled b := by
    rw [scaled_eq_ediv a ha, scaled_eq_ediv b (by omega)]
    omega
  refine ⟨hsb.1, hsb.2, by omega, ?_, by decide, by decide, hmono, ?_⟩
  · unfold level
    omega
  · unfold level
    omega

/-- Witness of `level_fits_byte` at brightness `37` and `50`. -/
theorem level_fits_byte_witness :
    (0 : Int) ≤ 37 ∧ (37 : Int) ≤ 50 ∧ (50 : Int) ≤ 100
      ∧ 0 ≤ scaled 50 ∧ scaled 50 ≤ 255 ∧ scaled 50 % 256 = scaled 50
      ∧ (level 50 : Int) = scaled 50
      ∧ level 0 = 0 ∧ level 100 = 255
      ∧ scaled 37 ≤ scaled 50 ∧ level 37 ≤ level 50 :=
  ⟨by decide, by decide, by decide,
    level_fits_byte 37 50 (by decide) (by decide) (by decide)⟩

/-! ## The colour sent by `UpdateLedStrip` -/

/-- C7: with power on and a brightness `b` in `0..100`, `UpdateLedStrip` sends
the documented table entry at `L = floor(b*255/100)` for each of the seven
colour names; and whatever the colour string is, every channel of the colour
it sends is `0` or `L`. -/
theorem UpdateLedStrip_colour_table (s : LedStrip) (strip : CircularStrip)
    (hstrip : s.led_strip_ = some strip) (hpow : s.power_ = true)
    (hb0 : 0 ≤ s.brightness_) (hb1 : s.brightness_ ≤ 100) :
    (UpdateLedStrip { s with color_ := "white" }).led_strip_
        = some ⟨StripCall.SetAllColor
            ⟨floorLevel s.brightness_, floorLevel s.brightness_, floorLevel s.brightness_⟩
            :: strip.calls⟩
      ∧ (UpdateLedStrip { s with color_ := "red" }).led_strip_
        = some ⟨StripCall.SetAllColor ⟨floorLevel s.brightness_, 0, 0⟩ :: strip.calls⟩
      ∧ (UpdateLedStrip { s with color_ := "green" }).led_strip_
        = some ⟨StripCall.SetAllColor ⟨0, floorLevel s.brightness_, 0⟩ :: strip.calls⟩
      ∧ (UpdateLedStrip { s with color_ := "blue" }).led_strip_
        = some ⟨StripCall.SetAllColor ⟨0, 0, floorLevel s.brightness_⟩ :: strip.calls⟩
      ∧ (UpdateLedStrip { s with color_ := "yellow" }).led_strip_
        = some ⟨StripCall.SetAllColor
            ⟨floorLevel s.brightness_, floorLevel s.brightness_, 0⟩ :: strip.calls⟩
      ∧ (UpdateLedStrip { s with color_ := "purple" }).led_strip_
        = some ⟨StripCall.SetAllColor
            ⟨floorLevel s.brightness_, 0, floorLevel s.brightness_⟩ :: strip.calls⟩
      ∧ (UpdateLedStrip { s with color_ := "cyan" }).led_strip_
        = some ⟨StripCall.SetAllColor
            ⟨0, floorLevel s.brightness_, floorLevel s.brightness_⟩ :: strip.calls⟩
      ∧ ∃ sent : StripColor,
          (UpdateLedStrip s).led_strip_ = some ⟨StripCall.SetAllColor sent :: strip.calls⟩
          ∧ (sent.red = 0 ∨ sent.red = floorLevel s.brightness_)
          ∧ (sent.green = 0 ∨ sent.green = floorLevel s.brightness_)
          ∧ (sent.blue = 0 ∨ sent.blue = floorLevel s.brightness_) := by
  have hl := level_eq_floorLevel s.brightness_ hb0 hb1
  refine ⟨?_, ?_, ?_, ?_, ?_, ?_, ?_, ?_⟩
  · simp [UpdateLedStrip, hstrip, hpow, hl]
  · simp [UpdateLedStrip, hstrip, hpow, hl]
  · simp [UpdateLedStrip, hstrip, hpow, hl]
  · simp [UpdateLedStrip, hstrip, hpow, hl]
  · simp [UpdateLedStrip, hstrip, hpow, hl]
  · simp [UpdateLedStrip, hstrip, hpow, hl]
  · simp [UpdateLedStrip, hstrip, hpow, hl]
  · simp only [UpdateLedStrip, hstrip, hpow, hl]
    split_ifs <;> simp [black]

/-- C1: `SetColor` stores any string unchecked, and with power on (at every
brightness, in particular every brightness in `0..100`) a string that is not
one of the seven documented names makes it send `SetAllColor (0,0,0)`. -/
theorem SetColor_unrecognised_sends_black (s : LedStrip) (strip : CircularStrip)
    (c : String) (hstrip : s.led_strip_ = some strip) (hpow : s.power_ = true)
    (hc : c ∉ documentedColors) :
    (SetColor s c).color_ = c
      ∧ (SetColor s c).led_strip_
          = some ⟨StripCall.SetAllColor ⟨0, 0, 0⟩ :: strip.calls⟩ := by
  simp only [documentedColors, List.mem_cons, List.mem_singleton, not_or,
    List.mem_nil_iff, or_false] at hc
  obtain ⟨h1, h2, h3, h4, h5, h6, h7⟩ := hc
  simp [SetColor, UpdateLedStrip, hstrip, hpow, h1, h2, h3, h4, h5, h6, h7]

/-! ## Power off -/

/-- C6: whatever the brightness and the colour string are, `TurnOff` sends
`SetAllColor (0,0,0)`, and while `power_` is false every `SetBrightness` and
every `SetColor` sends `SetAllColor (0,0,0)` too. -/
theorem power_off_sends_black (s : LedStrip) (strip : CircularStrip)
    (n : Int) (c : String) (hstrip : s.led_strip_ = some strip) :
    (TurnOff s).led_strip_ = some ⟨StripCall.SetAllColor ⟨0, 0, 0⟩ :: strip.calls⟩
      ∧ (s.power_ = false →
          (SetBrightness s n).led_strip_
              = some ⟨StripCall.SetAllColor ⟨0, 0, 0⟩ :: strip.calls⟩
            ∧ (SetColor s c).led_strip_
              = some ⟨StripCall.SetAllColor ⟨0, 0, 0⟩ :: strip.calls⟩) := by
  refine ⟨?_, fun hpow => ⟨?_, ?_⟩⟩
  · simp [TurnOff, UpdateLedStrip, hstrip, black]
  · simp [SetBrightness, UpdateLedStrip, hstrip, hpow, black]
  · simp [SetColor, UpdateLedStrip, hstrip, hpow, black]

/-! ## The effect methods -/

/-- C9: for each of the seven documented colour names (and every brightness,
in particular every brightness in `0..100`), the colour `StartBlink` passes to
`Blink` and the high colours `StartBreathing` and `StartScrolling` pass to
`Breathe` and `Scroll` are the colour `UpdateLedStrip` sends for the same
brightness and colour with power on; the low colour of `Breathe` and `Scroll`
is `(0,0,0)`. -/
theorem effects_use_configured_colour (s : LedStrip) (strip : CircularStrip)
    (hstrip : s.led_strip_ = some strip) (hc : s.color_ ∈ documentedColors) :
    ∃ sent : StripColor,
      (UpdateLedStrip { s with power_ := true }).led_strip_
          = some ⟨StripCall.SetAllColor sent :: strip.calls⟩
        ∧ (StartBlink s).led_strip_
          = some ⟨StripCall.Blink sent 1000 :: strip.calls⟩
        ∧ (StartBreathing s).led_strip_
          = some ⟨StripCall.Breathe ⟨0, 0, 0⟩ sent 50 :: strip.calls⟩
        ∧ (StartScrolling s).led_strip_
          = some ⟨StripCall.Scroll ⟨0, 0, 0⟩ sent 3 100 :: strip.calls⟩ := by
  simp only [documentedColors, List.mem_cons, List.mem_singleton,
    List.mem_nil_iff, or_false] at hc
  rcases hc with h | h | h | h | h | h | h <;>
    simp [UpdateLedStrip, StartBlink, StartBreathing, StartScrolling, hstrip, h]

/-- C2 (as amended): for a colour string that is not one of the seven
documented names and a brightness `b` in `0..100`, the colour `StartBlink`
passes to `Blink` and the high colours `StartBreathing` and `StartScrolling`
pass to `Breathe` and `Scroll` are white at the configured level, `(L,L,L)`
with `L = floor(b*255/100)`. -/
theorem effects_unrecognised_white (s : LedStrip) (strip : CircularStrip)
    (hstrip : s.led_strip_ = some strip)
    (hb0 : 0 ≤ s.brightness_) (hb1 : s.brightness_ ≤ 100)
    (hc : s.color_ ∉ documentedColors) :
    (StartBlink s).led_strip_
        = some ⟨StripCall.Blink
            ⟨floorLevel s.brightness_, floorLevel s.brightness_, floorLevel s.brightness_⟩
            1000 :: strip.calls⟩
      ∧ (StartBreathing s).led_strip_
        = some ⟨StripCall.Breathe ⟨0, 0, 0⟩
            ⟨floorLevel s.brightness_, floorLevel s.brightness_, floorLevel s.brightness_⟩
            50 :: strip.calls⟩
      ∧ (StartScrolling s).led_strip_
        = some ⟨StripCall.Scroll ⟨0, 0, 0⟩
            ⟨floorLevel s.brightness_, floorLevel s.brightness_, floorLevel s.brightness_⟩
            3 100 :: strip.calls⟩ := by
  have hl := level_eq_floorLevel s.brightness_ hb0 hb1
  simp only [documentedColors, List.mem_cons, List.mem_singleton, not_or,
    List.mem_nil_iff, or_false] at hc
  obtain ⟨_, h2, h3, h4, h5, h6, h7⟩ := hc
  simp [StartBlink, StartBreathing, StartScrolling, hstrip, hl, h2, h3, h4, h5, h6, h7]

/-- C2 (as stated, refuted): after `SetColor "orange"` on the constructed
adapter (brightness `50`), `StartBlink`, `StartBreathing` and `StartScrolling`
pass `(127,127,127)`, not `(0,0,0)`. -/
theorem effects_unrecognised_not_black :
    "orange" ∉ documentedColors
      ∧ (run (LedStrip.new 32 4) [Invocation.SetColor "orange"]).color_ = "orange"
      ∧ (run (LedStrip.new 32 4) [Invocation.SetColor "orange"]).brightness_ = 50
      ∧ (run (LedStrip.new 32 4) [Invocation.SetColor "orange", Invocation.StartBlink]).led_strip_
          = some ⟨[StripCall.Blink ⟨127, 127, 127⟩ 1000,
                   StripCall.SetAllColor ⟨0, 0, 0⟩, StripCall.SetAllColor ⟨0, 0, 0⟩,
                   StripCall.SetBrightness 32 4]⟩
      ∧ (run (LedStrip.new 32 4)
            [Invocation.SetColor "orange", Invocation.StartBreathing]).led_strip_
          = some ⟨[StripCall.Breathe ⟨0, 0, 0⟩ ⟨127, 127, 127⟩ 50,
                   StripCall.SetAllColor ⟨0, 0, 0⟩, StripCall.SetAllColor ⟨0, 0, 0⟩,
                   StripCall.SetBrightness 32 4]⟩
      ∧ (run (LedStrip.new 32 4)
            [Invocation.SetColor "orange", Invocation.StartScrolling]).led_strip_
          = some ⟨[StripCall.Scroll ⟨0, 0, 0⟩ ⟨127, 127, 127⟩ 3 100,
                   StripCall.SetAllColor ⟨0, 0, 0⟩, StripCall.SetAllColor ⟨0, 0, 0⟩,
                   StripCall.SetBrightness 32 4]⟩
      ∧ (⟨127, 127, 127⟩ : StripColor) ≠ ⟨0, 0, 0⟩ := by
  refine ⟨by decide, by decide, by decide, by decide, by decide, by decide, by decide⟩

/-! ## The brightness property -/

theorem UpdateLedStrip_fields (s : LedStrip) :
    (UpdateLedStrip s).power_ = s.power_
      ∧ (UpdateLedStrip s).brightness_ = s.brightness_
      ∧ (UpdateLedStrip s).color_ = s.color_ := by
  unfold UpdateLedStrip
  cases s.led_strip_ with
  | none => simp
  | some strip =>
    by_cases hp : s.power_ = true <;> simp [hp]

theorem SetBrightness_brightness (s : LedStrip) (n : Int) :
    (SetBrightness s n).brightness_ = min (n % 256) 100 := by
  unfold SetBrightness
  rw [(UpdateLedStrip_fields _).2.1]
  simp only []
  split_ifs <;> omega

theorem effects_brightness (s : LedStrip) :
    (StartBlink s).brightness_ = s.brightness_
      ∧ (StartBreathing s).brightness_ = s.brightness_
      ∧ (StartScrolling s).brightness_ = s.brightness_ := by
  unfold StartBlink StartBreathing StartScrolling
  cases s.led_strip_ <;> simp

theorem invoke_brightness_range (s : LedStrip) (c : Invocation)
    (h : 0 ≤ s.brightness_ ∧ s.brightness_ ≤ 100) :
    0 ≤ (invoke s c).brightness_ ∧ (invoke s c).brightness_ ≤ 100 := by
  cases c with
  | TurnOn => simpa [invoke, TurnOn, (UpdateLedStrip_fields _).2.1] using h
  | TurnOff => simpa [invoke, TurnOff, (UpdateLedStrip_fields _).2.1] using h
  | SetBrightness n =>
    simp only [invoke, SetBrightness_brightness]
    omega
  | SetColor c => simpa [invoke, SetColor, (UpdateLedStrip_fields _).2.1] using h
  | StartBlink => simpa [invoke, (effects_brightness s).1] using h
  | StartBreathing => simpa [invoke, (effects_brightness s).2.1] using h
  | StartScrolling => simpa [invoke, (effects_brightness s).2.2] using h

theorem run_brightness_range (cs : List Invocation) (s : LedStrip)
    (h : 0 ≤ s.brightness_ ∧ s.brightness_ ≤ 100) :
    0 ≤ (run s cs).brightness_ ∧ (run s cs).brightness_ ≤ 100 := by
  induction cs generalizing s with
  | nil => simpa [run] using h
  | cons c cs ih =>
    have := ih (invoke s c) (invoke_brightness_range s c h)
    simpa [run] using this

/-- C3: the brightness property is `50` after construction, and after every
finite sequence of `TurnOn`, `TurnOff`, `SetBrightness` (with any integer
argument), `SetColor`, `StartBlink`, `StartBreathing` and `StartScrolling`
calls it lies in `0..100`. -/
theorem brightness_always_percentage (d l : Nat) (cs : List Invocation) :
    (LedStrip.new d l).brightness_ = 50
      ∧ 0 ≤ (run (LedStrip.new d l) cs).brightness_
      ∧ (run (LedStrip.new d l) cs).brightness_ ≤ 100 :=
  ⟨rfl, run_brightness_range cs (LedStrip.new d l) (by simp [LedStrip.new])⟩

/-- C4 (the code at the failing input): a level of `256` is narrowed to `0`
before the clamp, so the brightness property reads `0` where saturation gives
`min(256, 100) = 100`; a level of `300` reads `44`. -/
theorem SetBrightness_wraps_before_clamp :
    (SetBrightness (LedStrip.new 32 4) 256).brightness_ = 0
      ∧ min (256 : Int) 100 = 100
      ∧ (SetBrightness (LedStrip.new 32 4) 300).brightness_ = 44
      ∧ min (300 : Int) 100 = 100 := by
  refine ⟨by decide, by decide, by decide, by decide⟩

/-! ## Mirroring of the properties on the strip -/

theorem tableColour_eq_chain (c : String) (L : Nat) :
    tableColour c L =
      if c = "white" then ⟨L, L, L⟩
      else if c = "red" then ⟨L, 0, 0⟩
      else if c = "green" then ⟨0, L, 0⟩
      else if c = "blue" then ⟨0, 0, L⟩
      else if c = "yellow" then ⟨L, L, 0⟩
      else if c = "purple" then ⟨L, 0, L⟩
      else if c = "cyan" then ⟨0, L, L⟩
      else ⟨0, 0, 0⟩ := by
  unfold tableColour
  split <;> simp_all

theorem UpdateLedStrip_sends_render (s : LedStrip) (strip : CircularStrip)
    (hstrip : s.led_strip_ = some strip)
    (hb : 0 ≤ s.brightness_ ∧ s.brightness_ ≤ 100) :
    (UpdateLedStrip s).led_strip_
      = some ⟨StripCall.SetAllColor (render s.power_ s.brightness_ s.color_)
          :: strip.calls⟩ := by
  have hl := level_eq_floorLevel s.brightness_ hb.1 hb.2
  by_cases hp : s.power_ = true
  · simp [UpdateLedStrip, hstrip, hp, hl, render, tableColour_eq_chain]
  · simp [UpdateLedStrip, hstrip, hp, render, black]

theorem UpdateLedStrip_sends_render_after (s : LedStrip) (strip : CircularStrip)
    (hstrip : s.led_strip_ = some strip)
    (hb : 0 ≤ s.brightness_ ∧ s.brightness_ ≤ 100) :
    (UpdateLedStrip s).led_strip_
      = some ⟨StripCall.SetAllColor
          (render (UpdateLedStrip s).power_ (UpdateLedStrip s).brightness_
            (UpdateLedStrip s).color_)
          :: strip.calls⟩ := by
  obtain ⟨h1, h2, h3⟩ := UpdateLedStrip_fields s
  rw [h1, h2, h3]
  exact UpdateLedStrip_sends_render s strip hstrip hb

theorem propertyCall_sends_render (s : LedStrip) (strip : CircularStrip)
    (c : Invocation) (hstrip : s.led_strip_ = some strip)
    (hb : 0 ≤ s.brightness_ ∧ s.brightness_ ≤ 100)
    (hc : c.isPropertyCall = true) :
    (invoke s c).led_strip_
      = some ⟨StripCall.SetAllColor
          (render (invoke s c).power_ (invoke s c).brightness_ (invoke s c).color_)
          :: strip.calls⟩ := by
  cases c with
  | TurnOn =>
    exact UpdateLedStrip_sends_render_after { s with power_ := true } strip hstrip hb
  | TurnOff =>
    exact UpdateLedStrip_sends_render_after { s with power_ := false } strip hstrip hb
  | SetBrightness n =>
    have hn' : (0 : Int) ≤ (if n % 256 > 100 then 100 else n % 256)
        ∧ (if n % 256 > 100 then 100 else n % 256) ≤ (100 : Int) := by
      split_ifs <;> omega
    exact UpdateLedStrip_sends_render_after
      { s with brightness_ := if n % 256 > 100 then 100 else n % 256 } strip hstrip hn'
  | SetColor c =>
    exact UpdateLedStrip_sends_render_after { s with color_ := c } strip hstrip hb
  | StartBlink => simp [Invocation.isPropertyCall] at hc
  | StartBreathing => simp [Invocation.isPropertyCall] at hc
  | StartScrolling => simp [Invocation.isPropertyCall] at hc

theorem run_propertyCalls_mirror (cs : List Invocation) (s : LedStrip)
    (strip : CircularStrip) (hstrip : s.led_strip_ = some strip)
    (hb : 0 ≤ s.brightness_ ∧ s.brightness_ ≤ 100)
    (hlast : lastColor strip.calls = some (render s.power_ s.brightness_ s.color_))
    (hcs : cs.all Invocation.isPropertyCall = true) :
    ∃ strip', (run s cs).led_strip_ = some strip'
      ∧ lastColor strip'.calls
          = some (render (run s cs).power_ (run s cs).brightness_ (run s cs).color_) := by
  induction cs generalizing s strip with
  | nil => exact ⟨strip, by simpa [run] using hstrip, by simpa [run] using hlast⟩
  | cons c cs ih =>
    simp only [List.all_cons, Bool.and_eq_true] at hcs
    have hsend := propertyCall_sends_render s strip c hstrip hb hcs.1
    have := ih (invoke s c) _ hsend (invoke_brightness_range s c hb)
      (by simp [lastColor]) hcs.2
    simpa [run] using this

/-- C5: starting from the constructed adapter and with only `TurnOn`,
`TurnOff`, `SetBrightness` and `SetColor` calls, after every finite sequence
`cs` the last colour sent to the strip is `render` of the current
`(power_, brightness_, color_)`, and every further such call `c` issues exactly
one strip call, a `SetAllColor` carrying `render` of the properties as they
are after the call. -/
theorem mirrored_properties_reapplied (d l : Nat) (cs : List Invocation)
    (c : Invocation) (hcs : cs.all Invocation.isPropertyCall = true)
    (hc : c.isPropertyCall = true) :
    ∃ before after : CircularStrip,
      (run (LedStrip.new d l) cs).led_strip_ = some before
        ∧ lastColor before.calls
            = some (render (run (LedStrip.new d l) cs).power_
                (run (LedStrip.new d l) cs).brightness_
                (run (LedStrip.new d l) cs).color_)
        ∧ (invoke (run (LedStrip.new d l) cs) c).led_strip_ = some after
        ∧ after.calls
            = StripCall.SetAllColor
                (render (invoke (run (LedStrip.new d l) cs) c).power_
                  (invoke (run (LedStrip.new d l) cs) c).brightness_
                  (invoke (run (LedStrip.new d l) cs) c).color_)
              :: before.calls := by
  obtain ⟨before, h1, h2⟩ := run_propertyCalls_mirror cs (LedStrip.new d l) _ rfl
    (by simp [LedStrip.new]) (by simp [LedStrip.new, lastColor, render, black]) hcs
  have hb := run_brightness_range cs (LedStrip.new d l) (by simp [LedStrip.new])
  have hsend := propertyCall_sends_render _ before c h1 hb hc
  exact ⟨before, _, h1, h2, hsend, rfl⟩

/-! ## Concrete instances -/

/-- Witness of `SetColor_unrecognised_sends_black`: `SetColor "orange"` on the
lit adapter. -/
theorem SetColor_unrecognised_sends_black_witness :
    litState.led_strip_ = some litStrip ∧ litState.power_ = true
      ∧ "orange" ∉ documentedColors
      ∧ (SetColor litState "orange").color_ = "orange"
      ∧ (SetColor litState "orange").led_strip_
          = some ⟨StripCall.SetAllColor ⟨0, 0, 0⟩ :: litStrip.calls⟩ :=
  ⟨by decide, by decide, by decide,
    SetColor_unrecognised_sends_black litState litStrip "orange"
      (by decide) (by decide) (by decide)⟩

/-- Witness of `effects_unrecognised_white`: the effect methods on the adapter
whose colour is `"orange"`. -/
theorem effects_unrecognised_white_witness :
    orangeState.led_strip_ = some orangeStrip
      ∧ 0 ≤ orangeState.brightness_ ∧ orangeState.brightness_ ≤ 100
      ∧ orangeState.color_ ∉ documentedColors
      ∧ (StartBlink orangeState).led_strip_
        = some ⟨StripCall.Blink
            ⟨floorLevel orangeState.brightness_, floorLevel orangeState.brightness_,
              floorLevel orangeState.brightness_⟩
            1000 :: orangeStrip.calls⟩
      ∧ (StartBreathing orangeState).led_strip_
        = some ⟨StripCall.Breathe ⟨0, 0, 0⟩
            ⟨floorLevel orangeState.brightness_, floorLevel orangeState.brightness_,
              floorLevel orangeState.brightness_⟩
            50 :: orangeStrip.calls⟩
      ∧ (StartScrolling orangeState).led_strip_
        = some ⟨StripCall.Scroll ⟨0, 0, 0⟩
            ⟨floorLevel orangeState.brightness_, floorLevel orangeState.brightness_,
              floorLevel orangeState.brightness_⟩
            3 100 :: orangeStrip.calls⟩ :=
  ⟨by decide, by decide, by decide, by decide,
    effects_unrecognised_white orangeState orangeStrip
      (by decide) (by decide) (by decide) (by decide)⟩

/-- Witness of `mirrored_properties_reapplied`: `TurnOn`, `SetBrightness 80`,
`SetColor "red"`, followed by `TurnOff`. -/
theorem mirrored_properties_reapplied_witness :
    [Invocation.TurnOn, Invocation.SetBrightness 80, Invocation.SetColor "red"].all
        Invocation.isPropertyCall = true
      ∧ Invocation.TurnOff.isPropertyCall = true
      ∧ ∃ before after : CircularStrip,
        (run (LedStrip.new 32 4)
          [Invocation.TurnOn, Invocation.SetBrightness 80,
            Invocation.SetColor "red"]).led_strip_ = some before
        ∧ lastColor before.calls
            = some (render
                (run (LedStrip.new 32 4)
                  [Invocation.TurnOn, Invocation.SetBrightness 80,
                    Invocation.SetColor "red"]).power_
                (run (LedStrip.new 32 4)
                  [Invocation.TurnOn, Invocation.SetBrightness 80,
                    Invocation.SetColor "red"]).brightness_
                (run (LedStrip.new 32 4)
                  [Invocation.TurnOn, Invocation.SetBrightness 80,
                    Invocation.SetColor "red"]).color_)
        ∧ (invoke (run (LedStrip.new 32 4)
            [Invocation.TurnOn, Invocation.SetBrightness 80,
              Invocation.SetColor "red"]) Invocation.TurnOff).led_strip_ = some after
        ∧ after.calls
            = StripCall.SetAllColor
                (render
                  (invoke (run (LedStrip.new 32 4)
                    [Invocation.TurnOn, Invocation.SetBrightness 80,
                      Invocation.SetColor "red"]) Invocation.TurnOff).power_
                  (invoke (run (LedStrip.new 32 4)
                    [Invocation.TurnOn, Invocation.SetBrightness 80,
                      Invocation.SetColor "red"]) Invocation.TurnOff).brightness_
                  (invoke (run (LedStrip.new 32 4)
                    [Invocation.TurnOn, Invocation.SetBrightness 80,
                      Invocation.SetColor "red"]) Invocation.TurnOff).color_)
              :: before.calls :=
  ⟨by decide, by decide,
    mirrored_properties_reapplied 32 4
      [Invocation.TurnOn, Invocation.SetBrightness 80, Invocation.SetColor "red"]
      Invocation.TurnOff (by decide) (by decide)⟩

/-- Witness of `power_off_sends_black`: the adapter whose colour is `"orange"`
has power off. -/
theorem power_off_sends_black_witness :
    orangeState.led_strip_ = some orangeStrip ∧ orangeState.power_ = false
      ∧ (TurnOff orangeState).led_strip_
          = some ⟨StripCall.SetAllColor ⟨0, 0, 0⟩ :: orangeStrip.calls⟩
      ∧ (SetBrightness orangeState 80).led_strip_
          = some ⟨StripCall.SetAllColor ⟨0, 0, 0⟩ :: orangeStrip.calls⟩
      ∧ (SetColor orangeState "red").led_strip_
          = some ⟨StripCall.SetAllColor ⟨0, 0, 0⟩ :: orangeStrip.calls⟩ :=
  ⟨by decide, by decide,
    (power_off_sends_black orangeState orangeStrip 80 "red" (by decide)).1,
    (power_off_sends_black orangeState orangeStrip 80 "red" (by decide)).2 (by decide)⟩

/-- Witness of `UpdateLedStrip_colour_table`: the lit adapter at brightness
`50`. -/
theorem UpdateLedStrip_colour_table_witness :
    litState.led_strip_ = some litStrip ∧ litState.power_ = true
      ∧ 0 ≤ litState.brightness_ ∧ litState.brightness_ ≤ 100
      ∧ (UpdateLedStrip { litState with color_ := "white" }).led_strip_
        = some ⟨StripCall.SetAllColor ⟨127, 127, 127⟩ :: litStrip.calls⟩
      ∧ (UpdateLedStrip { litState with color_ := "red" }).led_strip_
        = some ⟨StripCall.SetAllColor ⟨127, 0, 0⟩ :: litStrip.calls⟩
      ∧ (UpdateLedStrip { litState with color_ := "green" }).led_strip_
        = some ⟨StripCall.SetAllColor ⟨0, 127, 0⟩ :: litStrip.calls⟩
      ∧ (UpdateLedStrip { litState with color_ := "blue" }).led_strip_
        = some ⟨StripCall.SetAllColor ⟨0, 0, 127⟩ :: litStrip.calls⟩
      ∧ (UpdateLedStrip { litState with color_ := "yellow" }).led_strip_
        = some ⟨StripCall.SetAllColor ⟨127, 127, 0⟩ :: litStrip.calls⟩
      ∧ (UpdateLedStrip { litState with color_ := "purple" }).led_strip_
        = some ⟨StripCall.SetAllColor ⟨127, 0, 127⟩ :: litStrip.calls⟩
      ∧ (UpdateLedStrip { litState with color_ := "cyan" }).led_strip_
        = some ⟨StripCall.SetAllColor ⟨0, 127, 127⟩ :: litStrip.calls⟩
      ∧ ∃ sent : StripColor,
          (UpdateLedStrip litState).led_strip_
            = some ⟨StripCall.SetAllColor sent :: litStrip.calls⟩
          ∧ (sent.red = 0 ∨ sent.red = 127)
          ∧ (sent.green = 0 ∨ sent.green = 127)
          ∧ (sent.blue = 0 ∨ sent.blue = 127) :=
  ⟨by decide, by decide, by decide, by decide,
    UpdateLedStrip_colour_table litState litStrip
      (by decide) (by decide) (by decide) (by decide)⟩

/-- Witness of `effects_use_configured_colour`: the lit adapter, whose colour
is `"white"`. -/
theorem effects_use_configured_colour_witness :
    litState.led_strip_ = some litStrip ∧ litState.color_ ∈ documentedColors
      ∧ ∃ sent : StripColor,
        (UpdateLedStrip { litState with power_ := true }).led_strip_
            = some ⟨StripCall.SetAllColor sent :: litStrip.calls⟩
          ∧ (StartBlink litState).led_strip_
            = some ⟨StripCall.Blink sent 1000 :: litStrip.calls⟩
          ∧ (StartBreathing litState).led_strip_
            = some ⟨StripCall.Breathe ⟨0, 0, 0⟩ sent 50 :: litStrip.calls⟩
          ∧ (StartScrolling litState).led_strip_
            = some ⟨StripCall.Scroll ⟨0, 0, 0⟩ sent 3 100 :: litStrip.calls⟩ :=
  ⟨by decide, by decide,
    effects_use_configured_colour litState litStrip (by decide) (by decide)⟩

end iot
